import Mathlib

/-!
Shallow embedding of the Student_Dashboard repository (src/module.py,
src/semester.py, src/study_program.py, src/student.py, src/resources.py,
src/data_management.py, src/logic.py).

Python floats are modelled as exact rationals (`Rat`); Python dictionaries
produced by the various `to_dict` methods are modelled as Lean structures;
a Python exception that escapes a function is modelled with `Except`.
Error-message strings keep the source wording except that quote characters
inside messages are elided.
-/

namespace StudentDashboard

/-- A Python scalar stored in `Grade.grade` (src/module.py, class Grade):
either a string or a number.  Through the application only the accepted
token "a" and float values arrive here, but `Modul.status` inspects the
runtime type, so both shapes are kept. -/
inductive PyVal where
  | str (s : String)
  | num (q : Rat)
deriving DecidableEq

/-- src/module.py, class Modul.  `grade = none` models `self.grade is None`;
`grade = some v` models a `Grade` object wrapping the scalar `v`. -/
structure Modul where
  id : String
  name : String
  credits : Int
  exam_type : String
  grade : Option PyVal
deriving DecidableEq

/-- Python `str.lower()` character-wise lower-casing. -/
def pyLower (s : String) : String :=
  String.mk (s.data.map Char.toLower)

/-- src/module.py, `Modul.status`: `none` without a grade, `accepted` for a
string grade whose lower-case form is "a", `passed` for a numeric grade
at most 4.0, `none` otherwise. -/
def Modul.status (m : Modul) : String :=
  match m.grade with
  | none => "none"
  | some (.str s) => if pyLower s = "a" then "accepted" else "none"
  | some (.num q) => if q ≤ 4 then "passed" else "none"

/-- src/semester.py, class Semester. -/
structure Semester where
  number : Int
  modules : List Modul
deriving DecidableEq

/-- src/study_program.py, class Study_program.  `total_credits` is the stored
target field set at construction (and overwritten by `from_dict`). -/
structure Study_program where
  name : String
  total_credits : Int
  semesters : List Semester
deriving DecidableEq

/-- src/study_program.py, `get_semester`: first semester carrying the
requested number, if any. -/
def Study_program.get_semester (sp : Study_program) (n : Int) : Option Semester :=
  sp.semesters.find? (fun s => s.number == n)

/-- The semester-insertion loop of src/study_program.py `add_semester`:
insert before the first semester with a larger number, else append. -/
def insertSorted (sems : List Semester) (s : Semester) : List Semester :=
  match sems with
  | [] => [s]
  | t :: rest => if s.number < t.number then s :: t :: rest else t :: insertSorted rest s

/-- src/study_program.py, `add_semester`: raises ValueError (modelled as
`Except.error`) on a duplicate semester number, otherwise inserts the new
semester keeping the list ordered by number. -/
def Study_program.add_semester (sp : Study_program) (s : Semester) :
    Except String Study_program :=
  if sp.semesters.any (fun t => t.number == s.number) then
    Except.error ("Semester " ++ toString s.number ++ " already exists.")
  else
    Except.ok { sp with semesters := insertSorted sp.semesters s }

/-- src/study_program.py, `remove_semester`: drops every semester with the
given number and then additionally drops every semester left without
modules. -/
def Study_program.remove_semester (sp : Study_program) (n : Int) : Study_program :=
  let s1 := sp.semesters.filter (fun s => s.number != n)
  { sp with semesters := s1.filter (fun s => !s.modules.isEmpty) }

/-- All modules of the program in the semester-major order in which every
`for semester ... for module ...` loop of the source visits them. -/
def Study_program.allModules (sp : Study_program) : List Modul :=
  (sp.semesters.map Semester.modules).flatten

/-- src/study_program.py, `get_total_credits`: sum of the credits of every
module in every semester (not the stored `total_credits` field). -/
def Study_program.get_total_credits (sp : Study_program) : Int :=
  (sp.allModules.map (fun m => m.credits)).sum

/-- src/logic.py, `Logic.get_completed_credits`: credits of the modules that
have a grade and whose status is `passed` or `accepted`. -/
def get_completed_credits (sp : Study_program) : Int :=
  ((sp.allModules.filter (fun m =>
      m.grade.isSome && (m.status == "passed" || m.status == "accepted"))).map
    (fun m => m.credits)).sum

/-- The numeric-grade observation used by `Logic.calculate_average_grade`:
`modul.grade is not None and isinstance(modul.grade.grade, (int, float))`. -/
def numericGrade (m : Modul) : Option Rat :=
  match m.grade with
  | some (.num q) => some q
  | _ => none

/-- src/logic.py, `Logic.calculate_average_grade` for a loaded student:
mean of the numeric grade values across all modules, `none` when there is
no numeric grade. -/
def calculate_average_grade (sp : Study_program) : Option Rat :=
  let grades := sp.allModules.filterMap numericGrade
  if grades.isEmpty then none
  else some (grades.sum / (grades.length : Rat))

/-- Classification of a raw grade-input string by the observations the
source performs on it: `empty` is the empty string, `blank` a nonempty
string that strips to the empty string, `acceptedTok` a string whose
stripped lower-case form is "a", `numTok q` a string that Python
`float()` parses to the value `q`, and `badTok` any other string
(`float()` raises ValueError on it).  Every grade-input string falls in
exactly one class. -/
inductive GradeInput where
  | empty
  | blank
  | acceptedTok
  | numTok (q : Rat)
  | badTok
deriving DecidableEq

/-- The grade-validation block of src/logic.py `Logic.add_module`
(lines 119-128): an empty string leaves the grade `None`; the accepted
token stores the string "a"; a parsed float must lie in [1.0, 5.0];
everything else raises ValueError, caught and reported as a failure
(modelled as `none`). -/
def parseAddGrade : GradeInput → Option (Option PyVal)
  | .empty => some none
  | .blank => none
  | .acceptedTok => some (some (.str "a"))
  | .numTok q => if 1 ≤ q ∧ q ≤ 5 then some (some (.num q)) else none
  | .badTok => none

/-- The grade branch of src/logic.py `Logic.edit_grade` (lines 158-166):
a string that strips to "" clears the grade, the accepted token stores
"a", and otherwise the bare `float()` result is stored with no range
check; only an unparsable string raises ValueError (modelled `none`). -/
def parseEditGrade : GradeInput → Option (Option PyVal)
  | .empty => some none
  | .blank => some none
  | .acceptedTok => some (some (.str "a"))
  | .numTok q => some (some (.num q))
  | .badTok => none

/-- Recursion of src/logic.py `Logic.find_module_by_id`: scan semesters in
order, inside each semester scan modules in order. -/
def findModuleAux (mid : String) : List Semester → Option (Modul × Int)
  | [] => none
  | s :: rest =>
    match s.modules.find? (fun m => m.id == mid) with
    | some m => some (m, s.number)
    | none => findModuleAux mid rest

/-- src/logic.py, `Logic.find_module_by_id`: the first module with the given
id together with its semester number, or `none`. -/
def find_module_by_id (sp : Study_program) (mid : String) : Option (Modul × Int) :=
  findModuleAux mid sp.semesters

/-- Replace the grade of the first module carrying the given id in a module
list (the Python code mutates the single object `find_module_by_id`
returned). -/
def setGradeInModules (mid : String) (g : Option PyVal) : List Modul → List Modul
  | [] => []
  | m :: rest =>
    if m.id == mid then { m with grade := g } :: rest
    else m :: setGradeInModules mid g rest

/-- Replace the grade of the first module carrying the given id across the
semester list, leaving every other semester untouched. -/
def setGradeAux (mid : String) (g : Option PyVal) : List Semester → List Semester
  | [] => []
  | s :: rest =>
    if s.modules.any (fun m => m.id == mid) then
      { s with modules := setGradeInModules mid g s.modules } :: rest
    else s :: setGradeAux mid g rest

/-- The grade stored for the first module with the given id, if the module
exists: the observation through which grade mutations are visible. -/
def gradeOf (sp : Study_program) (mid : String) : Option (Option PyVal) :=
  (find_module_by_id sp mid).map (fun p => p.1.grade)

/-- src/logic.py, `Logic.edit_grade`: module not found is a failure; then
the input is parsed per `parseEditGrade`; ValueError is a failure leaving
the program untouched; otherwise the found module's grade is replaced and
the result is `(true, "")`. -/
def edit_grade (sp : Study_program) (mid : String) (g : GradeInput) :
    (Bool × String) × Study_program :=
  match find_module_by_id sp mid with
  | none => ((false, "Module not found."), sp)
  | some _ =>
    match parseEditGrade g with
    | none => ((false, "Not a valid grade. Please try again."), sp)
    | some v => ((true, ""), { sp with semesters := setGradeAux mid v sp.semesters })

/-- The semester loop of src/logic.py `Logic.delete_module`: on the first
semester containing the id, filter out every module with that id and
report the semester number and whether the semester became empty. -/
def deleteFromSemesters (mid : String) : List Semester → Option (Int × Bool × List Semester)
  | [] => none
  | s :: rest =>
    if s.modules.any (fun m => m.id == mid) then
      let ms := s.modules.filter (fun m => m.id != mid)
      some (s.number, ms.isEmpty, { s with modules := ms } :: rest)
    else
      match deleteFromSemesters mid rest with
      | none => none
      | some (n, e, rest2) => some (n, e, s :: rest2)

/-- src/logic.py, `Logic.delete_module`: remove the module with the given id
from the first semester containing it; if that semester is left empty,
run `remove_semester` on the updated program; return whether a module was
removed. -/
def delete_module (sp : Study_program) (mid : String) : Bool × Study_program :=
  match deleteFromSemesters mid sp.semesters with
  | none => (false, sp)
  | some (n, becameEmpty, sems) =>
    let sp1 : Study_program := { sp with semesters := sems }
    (true, if becameEmpty then sp1.remove_semester n else sp1)

/-- src/module.py dictionary shape written by `Modul.to_dict`: the grade
entry is `null` or a one-field dict wrapping the scalar, modelled as
`Option PyVal`. -/
structure ModulDict where
  id : String
  name : String
  credits : Int
  exam_type : String
  grade : Option PyVal
deriving DecidableEq

/-- src/module.py, `Modul.to_dict`. -/
def Modul.to_dict (m : Modul) : ModulDict :=
  ⟨m.id, m.name, m.credits, m.exam_type, m.grade⟩

/-- src/module.py, `Modul.from_dict`: a grade is reconstructed exactly when
the stored entry is a dict (not `null`). -/
def Modul.from_dict (d : ModulDict) : Modul :=
  ⟨d.id, d.name, d.credits, d.exam_type, d.grade⟩

/-- src/semester.py dictionary shape. -/
structure SemesterDict where
  number : Int
  modules : List ModulDict
deriving DecidableEq

/-- src/semester.py, `Semester.to_dict`. -/
def Semester.to_dict (s : Semester) : SemesterDict :=
  ⟨s.number, s.modules.map Modul.to_dict⟩

/-- src/semester.py, `Semester.from_dict`. -/
def Semester.from_dict (d : SemesterDict) : Semester :=
  ⟨d.number, d.modules.map Modul.from_dict⟩

/-- src/study_program.py dictionary shape. -/
structure SPDict where
  name : String
  total_credits : Int
  semesters : List SemesterDict
deriving DecidableEq

/-- src/study_program.py, `Study_program.to_dict`: serializes the stored
`total_credits` field as is. -/
def Study_program.to_dict (sp : Study_program) : SPDict :=
  ⟨sp.name, sp.total_credits, sp.semesters.map Semester.to_dict⟩

/-- src/study_program.py, `Study_program.from_dict`: rebuilds the semesters
and then OVERWRITES the deserialized `total_credits` with the recomputed
`get_total_credits` sum (the comment in the source calls this a
recalculation "in case it needs updating"). -/
def Study_program.from_dict (d : SPDict) : Study_program :=
  let sp0 : Study_program := ⟨d.name, d.total_credits, d.semesters.map Semester.from_dict⟩
  { sp0 with total_credits := sp0.get_total_credits }

/-- src/student.py, class Student.  Python's `Student.__init__` does not set
`study_goal`; the attribute appears only after `from_dict` or
`update_student_info` assigns it.  `study_goal = none` models the
attribute being absent on the object. -/
structure Student where
  name : String
  matriculation_number : String
  study_program : Study_program
  study_goal : Option Rat
deriving DecidableEq

/-- The persisted student document; the `study_goal` key may be absent in a
stored file (`data.get` supplies 0.0 then). -/
structure StudentDict where
  name : String
  matriculation_number : String
  study_program : SPDict
  study_goal : Option Rat
deriving DecidableEq

/-- src/student.py, `Student.to_dict`: reads `self.study_goal`, which raises
AttributeError (modelled as `Except.error`) when the attribute was never
assigned. -/
def Student.to_dict (s : Student) : Except String StudentDict :=
  match s.study_goal with
  | none => Except.error "AttributeError: Student object has no attribute study_goal"
  | some g => Except.ok ⟨s.name, s.matriculation_number, s.study_program.to_dict, some g⟩

/-- src/student.py, `Student.from_dict`: always assigns `study_goal`,
defaulting a missing key to 0.0. -/
def Student.from_dict (d : StudentDict) : Student :=
  ⟨d.name, d.matriculation_number, Study_program.from_dict d.study_program,
    some (d.study_goal.getD 0)⟩

/-- src/data_management.py, `save_student_data`: serializes the student and
writes the document; the serialization itself can raise. -/
def save_student_data (s : Student) : Except String StudentDict :=
  s.to_dict

/-- src/logic.py, `Logic.initialize_data`: load the student document when
the file exists; on FileNotFoundError build the default study program
"Undeclared Program" with 0 total credits, the default student
"New Student" / "000000" (whose `study_goal` attribute is never
assigned), and save it.  The result pairs the in-memory student with the
on-disk document; an uncaught exception is `Except.error`. -/
def init_data (file : Option StudentDict) : Except String (Student × StudentDict) :=
  match file with
  | some d => Except.ok (Student.from_dict d, d)
  | none =>
    let default_study_program : Study_program := ⟨"Undeclared Program", 0, []⟩
    let student : Student := ⟨"New Student", "000000", default_study_program, none⟩
    match save_student_data student with
    | Except.error e => Except.error e
    | Except.ok d => Except.ok (student, d)

/-- The in-memory study program of the loaded student paired with the
study-program portion of the persisted student document, for the
operations whose claims speak about persistence. -/
structure LogicState where
  program : Study_program
  savedDoc : SPDict
deriving DecidableEq

/-- Append a module to the modules of the first semester with the given
number (the Python code appends to the semester object in place). -/
def appendToSemester (n : Int) (m : Modul) : List Semester → List Semester
  | [] => []
  | s :: rest =>
    if s.number == n then { s with modules := s.modules ++ [m] } :: rest
    else s :: appendToSemester n m rest

/-- src/logic.py, `Logic.add_module` for a loaded student (so that the save
on the success path serializes without error): look up or lazily create
the semester (this happens BEFORE grade validation), build the module id
from the name slug and the current timestamp, validate the grade, and
only on success append the module and persist.  A ValueError from
`add_semester` would escape uncaught (`Except.error`). -/
def add_module (st : LogicState) (semester_number : Int) (name : String)
    (credits : Int) (exam_type : String) (now : Int) (g : GradeInput) :
    Except String ((Bool × String) × LogicState) :=
  match (match st.program.get_semester semester_number with
    | some _ => Except.ok st.program
    | none => st.program.add_semester ⟨semester_number, []⟩) with
  | Except.error e => Except.error e
  | Except.ok sp1 =>
    let module_id := "module_" ++ name.replace " " "_" ++ "_" ++ toString now
    match parseAddGrade g with
    | none =>
      Except.ok ((false, "Not a valid grade. Please try again."),
        { st with program := sp1 })
    | some grade =>
      let new_module : Modul := ⟨module_id, name, credits, exam_type, grade⟩
      let sp2 : Study_program :=
        { sp1 with semesters := appendToSemester semester_number new_module sp1.semesters }
      Except.ok ((true, "Module added successfully."), ⟨sp2, sp2.to_dict⟩)

/-- src/resources.py, class Resource. -/
structure Resource where
  name : String
  url : String
deriving DecidableEq

/-- src/logic.py, `Logic.add_resource`: no validation of any kind (the
docstring states it assumes non-empty strings); the resource is appended
to the loaded list and the list saved; nothing is returned. -/
def add_resource (stored : List Resource) (name : String) (url : String) :
    List Resource :=
  stored ++ [⟨name, url⟩]

/-- Python `list.pop(i)` restricted to the resulting list: a negative index
has the length added once; the pop succeeds iff the adjusted index is in
bounds, else IndexError (`none`). -/
def pyListPop {α : Type} (l : List α) (i : Int) : Option (List α) :=
  let j : Int := if i < 0 then i + l.length else i
  if 0 ≤ j ∧ j < l.length then some (l.eraseIdx j.toNat) else none

/-- src/logic.py, `Logic.delete_resource`: pop the index from the loaded
list; on success save and return True, on IndexError return False with
the stored list untouched. -/
def delete_resource (stored : List Resource) (i : Int) : Bool × List Resource :=
  match pyListPop stored i with
  | some l2 => (true, l2)
  | none => (false, stored)

/-- The per-semester effect C8 describes for delete_module, written from the
spec's words: every module with the id disappears from its semester, and
a semester left without modules disappears from the program while every
other semester stays intact. -/
def deleteSpec (mid : String) (l : List Semester) : List Semester :=
  l.filterMap (fun s =>
    let ms := s.modules.filter (fun m => m.id != mid)
    if ms.isEmpty then none else some { s with modules := ms })

/-! ## Theorems -/

/-- C1: the spec requires that an absent student file lead to a default
Student (name "New Student", matriculation number "000000", empty
zero-credit program, study_goal 0.0) being created and saved without
error.  The code constructs the default student but `Student.__init__`
never assigns `study_goal`, so the immediate `save_student_data` reads a
missing attribute and the initialization raises instead of completing:
the claim describes the intended behavior, the code a slip. -/
theorem C1_init_missing_file_raises :
    init_data none =
      Except.error "AttributeError: Student object has no attribute study_goal" := rfl

/-- C2: status() is a pure function of the grade: no grade gives "none",
the accepted token (case-insensitive "a") gives "accepted", a numeric
grade at most 4.0 gives "passed", and a numeric grade above 4.0 (such as
5.0) gives "none" — never a separate "failed" status. -/
theorem C2_status_classification (i nm : String) (c : Int) (e : String) :
    Modul.status ⟨i, nm, c, e, none⟩ = "none" ∧
    (∀ s : String, pyLower s = "a" →
      Modul.status ⟨i, nm, c, e, some (PyVal.str s)⟩ = "accepted") ∧
    (∀ q : Rat, q ≤ 4 → Modul.status ⟨i, nm, c, e, some (PyVal.num q)⟩ = "passed") ∧
    (∀ q : Rat, 4 < q → Modul.status ⟨i, nm, c, e, some (PyVal.num q)⟩ = "none") := by
  refine ⟨rfl, fun s hs => ?_, fun q hq => ?_, fun q hq => ?_⟩
  · simp [Modul.status, hs]
  · simp [Modul.status, hq]
  · simp [Modul.status, not_le.mpr hq]

/-- Witness for C2 at the concrete grades "A", 4.0 and 5.0. -/
theorem C2_status_classification_witness :
    Modul.status ⟨"m1", "Math", 5, "written", some (PyVal.str "A")⟩ = "accepted" ∧
    Modul.status ⟨"m1", "Math", 5, "written", some (PyVal.num 4)⟩ = "passed" ∧
    Modul.status ⟨"m1", "Math", 5, "written", some (PyVal.num 5)⟩ = "none" :=
  ⟨(C2_status_classification "m1" "Math" 5 "written").2.1 "A" (by decide),
   (C2_status_classification "m1" "Math" 5 "written").2.2.1 4 (by norm_num),
   (C2_status_classification "m1" "Math" 5 "written").2.2.2 5 (by norm_num)⟩

/-- C3: completed credits equal the credit sum over exactly the modules
whose status is "passed" or "accepted"; a module with numeric grade 5.0
and an ungraded module both have status "none", hence contribute 0. -/
theorem C3_completed_credits (sp : Study_program) :
    get_completed_credits sp =
      ((sp.allModules.filter (fun m =>
          m.status == "passed" || m.status == "accepted")).map (fun m => m.credits)).sum ∧
    (∀ i nm e, ∀ c : Int, Modul.status ⟨i, nm, c, e, some (PyVal.num 5)⟩ = "none") ∧
    (∀ i nm e, ∀ c : Int, Modul.status ⟨i, nm, c, e, none⟩ = "none") := by
  refine ⟨?_, fun i nm e c => by norm_num [Modul.status], fun i nm e c => rfl⟩
  have hf : sp.allModules.filter (fun m =>
      m.grade.isSome && (m.status == "passed" || m.status == "accepted")) =
      sp.allModules.filter (fun m => m.status == "passed" || m.status == "accepted") := by
    apply List.filter_congr
    intro m _
    cases m with
    | mk i nm c e gr =>
      cases gr with
      | none => rfl
      | some v => simp
  unfold get_completed_credits
  rw [hf]

/-- A module dictionary deserializes back to the module it came from. -/
theorem modul_dict_roundtrip (m : Modul) : Modul.from_dict (Modul.to_dict m) = m := rfl

/-- A semester dictionary deserializes back to the semester it came from. -/
theorem semester_dict_roundtrip (s : Semester) :
    Semester.from_dict (Semester.to_dict s) = s := by
  cases s with
  | mk n ms =>
    simp [Semester.to_dict, Semester.from_dict, List.map_map, Function.comp_def,
      modul_dict_roundtrip]

/-- C7 counterexample: a program whose user-set target 180 differs from the
module-credit sum 0 does not round-trip: the loaded target is 0. -/
theorem C7_counterexample :
    (Study_program.from_dict (Study_program.to_dict ⟨"CS", 180, []⟩)).total_credits = 0 ∧
    (0 : Int) ≠ 180 := ⟨rfl, by decide⟩

/-- C7 amended: the save/load round trip preserves the name and the
semesters exactly but resets total_credits to the recomputed sum of
module credits (`from_dict` overwrites the stored field), so the
user-set target survives only when it already equals that sum. -/
theorem C7_roundtrip_amended (sp : Study_program) :
    Study_program.from_dict (Study_program.to_dict sp) =
      { sp with total_credits := sp.get_total_credits } := by
  cases sp with
  | mk nm tc sems =>
    have hsem : (sems.map Semester.to_dict).map Semester.from_dict = sems := by
      simp [List.map_map, Function.comp_def, semester_dict_roundtrip]
    simp [Study_program.to_dict, Study_program.from_dict, hsem,
      Study_program.get_total_credits, Study_program.allModules]

/-- C9 counterexample: with an empty name the call still appends the
resource to the stored list (and returns nothing), so the list is
mutated and no failure is reported. -/
theorem C9_counterexample :
    add_resource [] "" "u" = [⟨"", "u"⟩] ∧
    ([⟨"", "u"⟩] : List Resource) ≠ [] := ⟨rfl, by decide⟩

/-- C9 amended: add_resource performs no validation (its docstring assumes
non-empty inputs; the emptiness checks live in the GUI dialog): it
unconditionally appends the given name/url pair — empty or not — to the
stored list, leaving the existing entries in place. -/
theorem C9_add_resource_amended (stored : List Resource) (name url : String) :
    (add_resource stored name url).length = stored.length + 1 ∧
    (add_resource stored name url).take stored.length = stored ∧
    (add_resource stored name url).getLast? = some ⟨name, url⟩ := by
  refine ⟨by simp [add_resource], ?_, ?_⟩
  · simp [add_resource, List.take_left]
  · simp [add_resource]

/-- The numeric-grade projection has as many entries as there are modules
with a numeric grade. -/
theorem length_filterMap_numericGrade (l : List Modul) :
    (l.filterMap numericGrade).length = l.countP (fun m => (numericGrade m).isSome) := by
  induction l with
  | nil => rfl
  | cons m rest ih =>
    cases hg : numericGrade m with
    | none => simp [List.filterMap_cons, List.countP_cons, hg, ih]
    | some q => simp [List.filterMap_cons, List.countP_cons, hg, ih]

/-- The sum of the numeric-grade projection counts every numeric grade once
and every other module as zero. -/
theorem sum_filterMap_numericGrade (l : List Modul) :
    (l.filterMap numericGrade).sum =
      (l.map (fun m => (numericGrade m).getD 0)).sum := by
  induction l with
  | nil => rfl
  | cons m rest ih =>
    cases hg : numericGrade m with
    | none => simp [List.filterMap_cons, hg, ih]
    | some q => simp [List.filterMap_cons, hg, ih]

/-- C4: average_grade is not applicable (`none`) exactly when no module
carries a numeric grade; otherwise it is the arithmetic mean of exactly
the numeric grade values — accepted-token and ungraded modules count for
neither the numerator (they contribute 0 there) nor the denominator (the
count of numeric-graded modules). -/
theorem C4_average_grade (sp : Study_program) :
    calculate_average_grade sp =
      if sp.allModules.countP (fun m => (numericGrade m).isSome) = 0 then none
      else some ((sp.allModules.map (fun m => (numericGrade m).getD 0)).sum /
        (sp.allModules.countP (fun m => (numericGrade m).isSome) : Rat)) := by
  unfold calculate_average_grade
  rw [← length_filterMap_numericGrade, ← sum_filterMap_numericGrade]
  cases h : sp.allModules.filterMap numericGrade with
  | nil => simp
  | cons q qs => simp

/-- C5 counterexample: with the existing module "m1" and the grade input
"6.0" (outside the valid set of the claim) edit_grade succeeds and
replaces the module state rather than failing without mutation. -/
theorem C5_counterexample :
    (edit_grade ⟨"CS", 0, [⟨1, [⟨"m1", "Math", 5, "w", some (PyVal.num 2)⟩]⟩]⟩ "m1"
      (GradeInput.numTok 6)).1.1 = true ∧
    (edit_grade ⟨"CS", 0, [⟨1, [⟨"m1", "Math", 5, "w", some (PyVal.num 2)⟩]⟩]⟩ "m1"
      (GradeInput.numTok 6)).2 ≠
      (⟨"CS", 0, [⟨1, [⟨"m1", "Math", 5, "w", some (PyVal.num 2)⟩]⟩]⟩ : Study_program) := by
  exact ⟨rfl, by decide⟩

/-- Searching a module list after replacing the grade of its first
id-matching module finds that module with the new grade. -/
theorem find?_setGradeInModules (mid : String) (g : Option PyVal) (l : List Modul) :
    (setGradeInModules mid g l).find? (fun m => m.id == mid) =
      (l.find? (fun m => m.id == mid)).map (fun m => { m with grade := g }) := by
  induction l with
  | nil => rfl
  | cons m rest ih =>
    cases hm : (m.id == mid) with
    | true =>
      simp only [setGradeInModules, hm, if_pos]
      rw [List.find?_cons_of_pos _ (by simpa using hm),
        List.find?_cons_of_pos _ (by simpa using hm)]
      rfl
    | false =>
      simp only [setGradeInModules, hm, if_neg, Bool.false_eq_true, not_false_iff]
      rw [List.find?_cons_of_neg _ (by simp [hm]),
        List.find?_cons_of_neg _ (by simp [hm])]
      exact ih

/-- Searching the program after replacing the grade of the first module with
the id finds that module with the new grade, in its semester. -/
theorem findModuleAux_setGradeAux (mid : String) (g : Option PyVal) (l : List Semester) :
    findModuleAux mid (setGradeAux mid g l) =
      (findModuleAux mid l).map (fun p => ({ p.1 with grade := g }, p.2)) := by
  induction l with
  | nil => rfl
  | cons s rest ih =>
    cases hs : s.modules.any (fun m => m.id == mid) with
    | true =>
      have hfind : (s.modules.find? (fun m => m.id == mid)).isSome := by
        rw [List.find?_isSome]
        simpa using List.any_eq_true.mp hs
      obtain ⟨m, hm⟩ := Option.isSome_iff_exists.mp hfind
      simp only [setGradeAux, hs, if_pos, findModuleAux, find?_setGradeInModules, hm]
      rfl
    | false =>
      have hfind : s.modules.find? (fun m => m.id == mid) = none := by
        rw [List.find?_eq_none]
        intro m hmem
        have := List.any_eq_false.mp hs m hmem
        simpa using this
      simp only [setGradeAux, hs, if_neg, Bool.false_eq_true, not_false_iff,
        findModuleAux, hfind]
      exact ih

/-- C5 amended: for an existing module id, edit_grade fails (mutating
nothing) only when the input is a non-empty, non-accepted string that
does not parse as a float at all; any float input is accepted with NO
[1.0, 5.0] range check — unlike add_module — so values such as 6.0 or
-1.0 succeed and replace the stored grade; empty or whitespace-only
input succeeds and clears the grade; the accepted token succeeds. -/
theorem C5_edit_grade_amended (sp : Study_program) (mid : String)
    (h : (find_module_by_id sp mid).isSome) :
    edit_grade sp mid GradeInput.badTok =
      ((false, "Not a valid grade. Please try again."), sp) ∧
    (∀ q : Rat, (edit_grade sp mid (GradeInput.numTok q)).1 = (true, "") ∧
      gradeOf (edit_grade sp mid (GradeInput.numTok q)).2 mid =
        some (some (PyVal.num q))) ∧
    (edit_grade sp mid GradeInput.empty).1 = (true, "") ∧
    (edit_grade sp mid GradeInput.blank).1 = (true, "") ∧
    (edit_grade sp mid GradeInput.acceptedTok).1 = (true, "") := by
  obtain ⟨p, hp⟩ := Option.isSome_iff_exists.mp h
  have hp2 : findModuleAux mid sp.semesters = some p := hp
  refine ⟨?_, fun q => ⟨?_, ?_⟩, ?_, ?_, ?_⟩ <;>
    simp [edit_grade, find_module_by_id, hp2, parseEditGrade, gradeOf,
      findModuleAux_setGradeAux]

/-- Witness for C5 amended: on a concrete one-module program, the
out-of-range grade 6.0 is accepted and stored. -/
theorem C5_edit_grade_amended_witness :
    (edit_grade ⟨"CS", 0, [⟨1, [⟨"m1", "Math", 5, "w", some (PyVal.num 2)⟩]⟩]⟩ "m1"
      (GradeInput.numTok 6)).1 = (true, "") ∧
    gradeOf (edit_grade ⟨"CS", 0, [⟨1, [⟨"m1", "Math", 5, "w", some (PyVal.num 2)⟩]⟩]⟩
      "m1" (GradeInput.numTok 6)).2 "m1" = some (some (PyVal.num 6)) :=
  (C5_edit_grade_amended ⟨"CS", 0, [⟨1, [⟨"m1", "Math", 5, "w", some (PyVal.num 2)⟩]⟩]⟩
    "m1" (by decide)).2.1 6

/-- C6 counterexample: on a program with no semester 1, add_module with the
unparsable-in-range grade 6.0 returns a failure, yet the in-memory
program now contains a freshly created empty semester 1 (created before
grade validation), so the semester set is not as before the call. -/
theorem C6_counterexample :
    add_module ⟨⟨"CS", 0, []⟩, ⟨"CS", 0, []⟩⟩ 1 "Math" 5 "w" 0 (GradeInput.numTok 6) =
      Except.ok ((false, "Not a valid grade. Please try again."),
        ⟨⟨"CS", 0, [⟨1, []⟩]⟩, ⟨"CS", 0, []⟩⟩) ∧
    (⟨"CS", 0, [⟨1, []⟩]⟩ : Study_program) ≠ ⟨"CS", 0, []⟩ := ⟨rfl, by decide⟩

/-- Inserting a semester grows the semester list by one. -/
theorem insertSorted_length (l : List Semester) (s : Semester) :
    (insertSorted l s).length = l.length + 1 := by
  induction l with
  | nil => rfl
  | cons t rest ih =>
    by_cases hlt : s.number < t.number
    · simp [insertSorted, hlt]
    · simp [insertSorted, hlt, ih]

/-- Inserting a module-less semester leaves the module list of the program
unchanged. -/
theorem allModules_insertSorted_empty (l : List Semester) (n : Int) :
    ((insertSorted l ⟨n, []⟩).map Semester.modules).flatten =
      (l.map Semester.modules).flatten := by
  induction l with
  | nil => rfl
  | cons t rest ih =>
    by_cases hlt : (⟨n, []⟩ : Semester).number < t.number
    · simp [insertSorted, hlt]
    · simp [insertSorted, hlt, ih]

/-- C6 amended: when the grade input fails validation, add_module returns a
structured failure, nothing is persisted (the saved document is exactly
as before) and no module is added; but the semester lookup runs BEFORE
grade validation, so if the target semester did not exist an empty
semester has already been inserted into the in-memory program — the
program is unchanged only when the semester already existed. -/
theorem C6_add_module_amended (st : LogicState) (n : Int) (name : String)
    (credits : Int) (et : String) (now : Int) (g : GradeInput)
    (hg : parseAddGrade g = none) :
    ∃ st2 : LogicState,
      add_module st n name credits et now g =
        Except.ok ((false, "Not a valid grade. Please try again."), st2) ∧
      st2.savedDoc = st.savedDoc ∧
      st2.program.allModules = st.program.allModules ∧
      ((st.program.get_semester n).isSome → st2 = st) ∧
      (st.program.get_semester n = none →
        st2.program.semesters.length = st.program.semesters.length + 1) := by
  cases hsem : st.program.get_semester n with
  | some s =>
    refine ⟨st, ?_, rfl, rfl, fun _ => rfl, fun hc => by simp [hsem] at hc⟩
    simp [add_module, hsem, hg]
  | none =>
    have hany : st.program.semesters.any (fun t => t.number == n) = false := by
      rw [List.any_eq_false]
      intro t ht
      have := List.find?_eq_none.mp hsem t ht
      simpa using this
    refine ⟨⟨{ st.program with
        semesters := insertSorted st.program.semesters ⟨n, []⟩ }, st.savedDoc⟩,
      ?_, rfl, ?_, fun hc => by simp [hsem] at hc, fun _ => ?_⟩
    · simp [add_module, hsem, Study_program.add_semester, hany, hg]
    · simpa [Study_program.allModules] using
        allModules_insertSorted_empty st.program.semesters n
    · simpa using insertSorted_length st.program.semesters ⟨n, []⟩

/-- Witness for C6 amended: the concrete failing call of the
counterexample satisfies the amended description. -/
theorem C6_add_module_amended_witness :
    ∃ st2 : LogicState,
      add_module ⟨⟨"CS", 0, []⟩, ⟨"CS", 0, []⟩⟩ 1 "Math" 5 "w" 0 (GradeInput.numTok 6) =
        Except.ok ((false, "Not a valid grade. Please try again."), st2) ∧
      st2.savedDoc = (⟨"CS", 0, []⟩ : SPDict) ∧
      st2.program.allModules = (⟨"CS", 0, []⟩ : Study_program).allModules ∧
      (((⟨"CS", 0, []⟩ : Study_program).get_semester 1).isSome →
        st2 = ⟨⟨"CS", 0, []⟩, ⟨"CS", 0, []⟩⟩) ∧
      ((⟨"CS", 0, []⟩ : Study_program).get_semester 1 = none →
        st2.program.semesters.length = 0 + 1) :=
  C6_add_module_amended ⟨⟨"CS", 0, []⟩, ⟨"CS", 0, []⟩⟩ 1 "Math" 5 "w" 0
    (GradeInput.numTok 6) (by decide)

/-- Python list.pop index semantics: out of bounds exactly when the index is
at least the length or below minus the length; a negative in-bounds
index removes the element counted from the end; a nonnegative in-bounds
index removes at that position. -/
theorem pyListPop_characterization {α : Type} (l : List α) (i : Int) :
    (((l.length : Int) ≤ i ∨ i < -(l.length : Int)) → pyListPop l i = none) ∧
    (-(l.length : Int) ≤ i → i ≤ -1 →
      pyListPop l i = some (l.eraseIdx (l.length - i.natAbs))) ∧
    (0 ≤ i → i < (l.length : Int) → pyListPop l i = some (l.eraseIdx i.toNat)) := by
  simp only [pyListPop]
  split_ifs with hneg hin hin
  · refine ⟨fun h => absurd h (by omega), fun h1 h2 => ?_, fun h1 h2 => absurd hneg (by omega)⟩
    have he : (i + (l.length : Int)).toNat = l.length - i.natAbs := by omega
    rw [he]
  · refine ⟨fun h => rfl, fun h1 h2 => absurd hin (by omega),
      fun h1 h2 => absurd hneg (by omega)⟩
  · refine ⟨fun h => absurd h (by omega), fun h1 h2 => absurd hneg (by omega), fun h1 h2 => ?_⟩
    rfl
  · refine ⟨fun h => rfl, fun h1 h2 => absurd hneg (by omega),
      fun h1 h2 => absurd hin (by omega)⟩

/-- C10: delete_resource reports False with the stored list unchanged
exactly when the index is at least the list length or below minus the
length; every negative index i with -length ≤ i ≤ -1 succeeds (returns
True) and removes the element |i| positions from the end, so negative
indices are not out of bounds. -/
theorem C10_delete_resource (l : List Resource) (i : Int) :
    (((delete_resource l i).1 = false ∧ (delete_resource l i).2 = l) ↔
      ((l.length : Int) ≤ i ∨ i < -(l.length : Int))) ∧
    (-(l.length : Int) ≤ i → i ≤ -1 →
      (delete_resource l i).1 = true ∧
      (delete_resource l i).2 = l.eraseIdx (l.length - i.natAbs)) := by
  obtain ⟨hOOB, hnegIdx, hposIdx⟩ := pyListPop_characterization l i
  constructor
  · constructor
    · rintro ⟨hfalse, -⟩
      by_contra hOut
      push_neg at hOut
      obtain ⟨h1, h2⟩ := hOut
      rcases le_or_lt 0 i with hge | hlt
      · have := hposIdx hge (by omega)
        simp [delete_resource, this] at hfalse
      · have := hnegIdx (by omega) (by omega)
        simp [delete_resource, this] at hfalse
    · intro hOut
      have := hOOB hOut
      simp [delete_resource, this]
  · intro h1 h2
    have := hnegIdx h1 h2
    simp [delete_resource, this]

/-- Witness for C10: popping index -1 from a two-element list succeeds and
removes the last element. -/
theorem C10_delete_resource_witness :
    (delete_resource [⟨"a", "u"⟩, ⟨"b", "v"⟩] (-1)).1 = true ∧
    (delete_resource [⟨"a", "u"⟩, ⟨"b", "v"⟩] (-1)).2 = [⟨"a", "u"⟩] := by
  have h := (C10_delete_resource [⟨"a", "u"⟩, ⟨"b", "v"⟩] (-1)).2
    (by decide) (by decide)
  exact ⟨h.1, h.2.trans (by decide)⟩

/-- A filterMap that keeps every element unchanged is the identity. -/
theorem filterMap_id_of_mem {α : Type} (f : α → Option α) (l : List α)
    (h : ∀ a ∈ l, f a = some a) : l.filterMap f = l := by
  induction l with
  | nil => rfl
  | cons a rest ih =>
    rw [List.filterMap_cons_some (h a (by simp)),
      ih (fun b hb => h b (by simp [hb]))]

/-- Module-level `any` over the whole program equals the nested
semester-by-semester `any`. -/
theorem any_flatten_map (l : List Semester) (p : Modul → Bool) :
    ((l.map Semester.modules).flatten.any p) = l.any (fun s => s.modules.any p) := by
  induction l with
  | nil => rfl
  | cons s rest ih => simp [List.any_append, ih]

/-- The semester number reported by the delete scan is the number of a
semester in the scanned list. -/
theorem deleteFromSemesters_number (mid : String) (l : List Semester)
    (n : Int) (e : Bool) (sems : List Semester)
    (h : deleteFromSemesters mid l = some (n, e, sems)) :
    ∃ t ∈ l, t.number = n := by
  induction l generalizing sems with
  | nil => simp [deleteFromSemesters] at h
  | cons s rest ih =>
    by_cases hs : s.modules.any (fun m => m.id == mid)
    · rw [deleteFromSemesters, if_pos hs] at h
      simp only [Option.some.injEq, Prod.mk.injEq] at h
      exact ⟨s, by simp, h.1⟩
    · rw [deleteFromSemesters, if_neg hs] at h
      cases hrec : deleteFromSemesters mid rest with
      | none => rw [hrec] at h; simp at h
      | some v =>
        obtain ⟨n2, e2, sems2⟩ := v
        rw [hrec] at h
        simp only [Option.some.injEq, Prod.mk.injEq] at h
        obtain ⟨t, ht, htn⟩ := ih sems2 (by rw [hrec, h.1, h.2.1])
        exact ⟨t, by simp [ht], htn⟩

/-- Characterization of the delete scan plus the empty-semester cleanup
under the program invariants (no empty semester, the id occurs at most
once, semester numbers pairwise distinct): the combination realizes
exactly the spec-side `deleteSpec` transform. -/
theorem deleteFromSemesters_spec (mid : String) (l : List Semester)
    (hne : ∀ s ∈ l, s.modules ≠ [])
    (hid : ((l.map Semester.modules).flatten.countP (fun m => m.id == mid)) ≤ 1)
    (hnum : l.Pairwise (fun a b => a.number ≠ b.number)) :
    (l.any (fun s => s.modules.any (fun m => m.id == mid)) = false →
      deleteFromSemesters mid l = none) ∧
    (l.any (fun s => s.modules.any (fun m => m.id == mid)) = true →
      ∃ n e sems, deleteFromSemesters mid l = some (n, e, sems) ∧
        (e = false → sems = deleteSpec mid l) ∧
        (e = true →
          (sems.filter (fun s => s.number != n)).filter
            (fun s => !s.modules.isEmpty) = deleteSpec mid l)) := by
  induction l with
  | nil => exact ⟨fun _ => rfl, fun hc => by simp at hc⟩
  | cons s rest ih =>
    obtain ⟨hhead, htail⟩ := List.pairwise_cons.mp hnum
    have hcount : ((s :: rest).map Semester.modules).flatten.countP
        (fun m => m.id == mid) =
        s.modules.countP (fun m => m.id == mid) +
        (rest.map Semester.modules).flatten.countP (fun m => m.id == mid) := by
      simp [List.countP_append]
    have hneR : ∀ t ∈ rest, t.modules ≠ [] := fun t ht => hne t (by simp [ht])
    have hidR : ((rest.map Semester.modules).flatten.countP
        (fun m => m.id == mid)) ≤ 1 := by omega
    by_cases hs : s.modules.any (fun m => m.id == mid)
    · -- the head semester owns the id
      have hpos : 0 < s.modules.countP (fun m => m.id == mid) :=
        List.countP_pos_iff.mpr (by simpa using List.any_eq_true.mp hs)
      have hzero : (rest.map Semester.modules).flatten.countP
          (fun m => m.id == mid) = 0 := by omega
      have hnotin : ∀ t ∈ rest, ∀ m ∈ t.modules, (m.id != mid) = true := by
        intro t ht m hm
        have hmem : m ∈ (rest.map Semester.modules).flatten :=
          List.mem_flatten.mpr ⟨t.modules, List.mem_map.mpr ⟨t, ht, rfl⟩, hm⟩
        have := List.countP_eq_zero.mp hzero m hmem
        simpa using this
      have hrestSpec : deleteSpec mid rest = rest := by
        apply filterMap_id_of_mem
        intro t ht
        have hfilt : t.modules.filter (fun m => m.id != mid) = t.modules :=
          List.filter_eq_self.mpr (hnotin t ht)
        simp only [hfilt]
        rw [if_neg (by simpa [List.isEmpty_iff] using hneR t ht)]
      have hheadSpec : deleteSpec mid (s :: rest) =
          (if (s.modules.filter (fun m => m.id != mid)).isEmpty then
            deleteSpec mid rest
          else { s with modules := s.modules.filter (fun m => m.id != mid) } ::
            deleteSpec mid rest) := by
        by_cases he : (s.modules.filter (fun m => m.id != mid)).isEmpty
        · rw [if_pos he]
          exact List.filterMap_cons_none (by simp only [if_pos he])
        · rw [if_neg he]
          exact List.filterMap_cons_some (by simp only [if_neg he])
      refine ⟨fun hc => by simp [hs] at hc, fun _ => ?_⟩
      refine ⟨s.number, (s.modules.filter (fun m => m.id != mid)).isEmpty,
        { s with modules := s.modules.filter (fun m => m.id != mid) } :: rest,
        by rw [deleteFromSemesters, if_pos hs], ?_, ?_⟩
      · intro he
        rw [hheadSpec, if_neg (by simp [he]), hrestSpec]
      · intro he
        rw [hheadSpec, if_pos he, hrestSpec]
        have hdrop : ((⟨s.number,
            s.modules.filter (fun m => m.id != mid)⟩ : Semester) :: rest).filter
            (fun t => t.number != s.number) = rest.filter
            (fun t => t.number != s.number) := by
          rw [List.filter_cons_of_neg (by simp)]
        have hkeep : rest.filter (fun t => t.number != s.number) = rest :=
          List.filter_eq_self.mpr (fun t ht => by
            simpa using (hhead t ht).symm)
        have hkeep2 : rest.filter (fun t => !t.modules.isEmpty) = rest :=
          List.filter_eq_self.mpr (fun t ht => by
            simpa [List.isEmpty_iff] using hneR t ht)
        calc ((({ s with modules := s.modules.filter (fun m => m.id != mid) } ::
                rest).filter (fun t => t.number != s.number)).filter
                (fun t => !t.modules.isEmpty))
            = (rest.filter (fun t => t.number != s.number)).filter
                (fun t => !t.modules.isEmpty) := by rw [hdrop]
          _ = rest := by rw [hkeep, hkeep2]
    · -- the head semester does not own the id
      have hnotin : ∀ m ∈ s.modules, (m.id != mid) = true := by
        intro m hm
        have := List.any_eq_false.mp (Bool.of_not_eq_true hs) m hm
        simpa using this
      have hfiltS : s.modules.filter (fun m => m.id != mid) = s.modules :=
        List.filter_eq_self.mpr hnotin
      have hheadSome : deleteSpec mid (s :: rest) = s :: deleteSpec mid rest := by
        apply List.filterMap_cons_some
        simp only [hfiltS]
        rw [if_neg (by simpa [List.isEmpty_iff] using hne s (by simp))]
      obtain ⟨ihn, ihy⟩ := ih hneR hidR htail
      constructor
      · intro hc
        have hcrest : rest.any (fun t => t.modules.any (fun m => m.id == mid)) = false := by
          simpa [hs] using hc
        rw [deleteFromSemesters, if_neg hs, ihn hcrest]
      · intro hc
        have hcrest : rest.any (fun t => t.modules.any (fun m => m.id == mid)) = true := by
          simpa [hs] using hc
        obtain ⟨n, e, sems2, hrec, hfalse, htrue⟩ := ihy hcrest
        refine ⟨n, e, s :: sems2, by rw [deleteFromSemesters, if_neg hs, hrec], ?_, ?_⟩
        · intro he
          rw [hheadSome, hfalse he]
        · intro he
          obtain ⟨t, ht, htn⟩ := deleteFromSemesters_number mid rest n e sems2 hrec
          have hsn : (s.number != n) = true := by
            have : s.number ≠ t.number := hhead t ht
            simp [htn ▸ this]
          have h1 : (s :: sems2).filter (fun u => u.number != n) =
              s :: sems2.filter (fun u => u.number != n) :=
            List.filter_cons_of_pos hsn
          rw [h1,
            List.filter_cons_of_pos (by simpa [List.isEmpty_iff] using hne s (by simp)),
            htrue he, hheadSome]

/-- C8: under the program invariants (every semester nonempty, the module
id unique, semester numbers distinct): for an absent id delete_module
returns False leaving the program unchanged; for a present id it returns
True and transforms the semesters exactly as the claim says — the module
is removed, its semester is dropped when that module was its last one,
and every other semester stays intact with its modules. -/
theorem C8_delete_module (sp : Study_program) (mid : String)
    (hne : ∀ s ∈ sp.semesters, s.modules ≠ [])
    (hid : sp.allModules.countP (fun m => m.id == mid) ≤ 1)
    (hnum : sp.semesters.Pairwise (fun a b => a.number ≠ b.number)) :
    (sp.allModules.any (fun m => m.id == mid) = false →
      delete_module sp mid = (false, sp)) ∧
    (sp.allModules.any (fun m => m.id == mid) = true →
      delete_module sp mid =
        (true, { sp with semesters := deleteSpec mid sp.semesters })) := by
  obtain ⟨hno, hyes⟩ := deleteFromSemesters_spec mid sp.semesters hne hid hnum
  constructor
  · intro hc
    have : deleteFromSemesters mid sp.semesters = none := by
      apply hno
      rw [← any_flatten_map]
      exact hc
    simp [delete_module, this]
  · intro hc
    obtain ⟨n, e, sems, hrec, hfalse, htrue⟩ := hyes (by
      rw [← any_flatten_map]; exact hc)
    cases e with
    | false =>
      unfold delete_module
      rw [hrec, hfalse rfl]
      rfl
    | true =>
      have hrs : Study_program.remove_semester
          { name := sp.name, total_credits := sp.total_credits, semesters := sems } n =
          { name := sp.name, total_credits := sp.total_credits,
            semesters := deleteSpec mid sp.semesters } :=
        congrArg (fun x : List Semester =>
          ({ name := sp.name, total_credits := sp.total_credits, semesters := x } :
            Study_program)) (htrue rfl)
      unfold delete_module
      rw [hrec]
      exact congrArg (fun x => (true, x)) hrs

/-- Witness for C8 on a concrete two-semester program: deleting the last
module of semester 2 removes the semester, deleting one of two modules
of semester 1 keeps the semester, deleting an absent id changes
nothing. -/
theorem C8_delete_module_witness :
    delete_module ⟨"CS", 0, [⟨1, [⟨"m1", "Math", 5, "w", none⟩,
        ⟨"m2", "Phy", 3, "w", none⟩]⟩, ⟨2, [⟨"m3", "Chem", 4, "w", none⟩]⟩]⟩ "m3" =
      (true, ⟨"CS", 0, [⟨1, [⟨"m1", "Math", 5, "w", none⟩,
        ⟨"m2", "Phy", 3, "w", none⟩]⟩]⟩) ∧
    delete_module ⟨"CS", 0, [⟨1, [⟨"m1", "Math", 5, "w", none⟩,
        ⟨"m2", "Phy", 3, "w", none⟩]⟩, ⟨2, [⟨"m3", "Chem", 4, "w", none⟩]⟩]⟩ "zzz" =
      (false, ⟨"CS", 0, [⟨1, [⟨"m1", "Math", 5, "w", none⟩,
        ⟨"m2", "Phy", 3, "w", none⟩]⟩, ⟨2, [⟨"m3", "Chem", 4, "w", none⟩]⟩]⟩) := by
  constructor
  · have h := (C8_delete_module ⟨"CS", 0, [⟨1, [⟨"m1", "Math", 5, "w", none⟩,
        ⟨"m2", "Phy", 3, "w", none⟩]⟩, ⟨2, [⟨"m3", "Chem", 4, "w", none⟩]⟩]⟩ "m3"
      (by decide) (by decide) (by decide)).2 (by decide)
    exact h.trans (by decide)
  · exact (C8_delete_module ⟨"CS", 0, [⟨1, [⟨"m1", "Math", 5, "w", none⟩,
        ⟨"m2", "Phy", 3, "w", none⟩]⟩, ⟨2, [⟨"m3", "Chem", 4, "w", none⟩]⟩]⟩ "zzz"
      (by decide) (by decide) (by decide)).1 (by decide)

end StudentDashboard
